import Mathlib

/-!
Shallow embedding of the listing-to-XMLTV transformation pipeline of
nomis/sd2xmltv (files rt2xmltv.py and sd2xmltv.py), together with proofs
about the behaviour claimed by the specification.

Python strings are modelled as lists of characters (PyStr), with
executable structural helpers for the split, lower-case, containment and
comparison operations the code uses. Python datetimes are modelled by a
proleptic-Gregorian ordinal day number (as produced by date.toordinal)
plus minutes since midnight; datetime comparison is lexicographic on
(date, time), exactly as in Python. Python exceptions are modelled by an
explicit error type.
-/

deriving instance DecidableEq for Except

/-- Errors raised by the modelled Python code: the field-count mismatch
exception of Programmes.iter (the MalformedRecordError of the spec),
ValueError from int() or datetime()/date() range validation, and
TypeError from comparing None with an int or calling date() with the
wrong arity. -/
inductive PyError where
  | malformedRecord
  | valueError
  | typeError
deriving DecidableEq

/-- Model of a Python str as its list of characters. -/
abbrev PyStr := List Char

/-- Python's s.split(sep) for a one-character separator sep: the empty
string splits to one empty part, and every occurrence of the separator
starts a new part. -/
def splitOnChar (c : Char) : PyStr → List PyStr
  | [] => [[]]
  | a :: rest =>
    if a = c then [] :: splitOnChar c rest
    else
      match splitOnChar c rest with
      | [] => [[a]]
      | g :: gs => (a :: g) :: gs

/-- Python's s.lower(). -/
def lowerChars (s : PyStr) : PyStr := s.map Char.toLower

/-- Python's lexicographic string comparison (strict), by code point,
with a proper shorter string coming first. -/
def charsLt : PyStr → PyStr → Bool
  | [], [] => false
  | [], _ :: _ => true
  | _ :: _, [] => false
  | a :: as, b :: bs => if a = b then charsLt as bs else decide (a < b)

/-- Python's non-strict string comparison. -/
def charsLe (a b : PyStr) : Bool := charsLt a b || a == b

/-- Whether the first list is an initial segment of the second. -/
def beginsWith : PyStr → PyStr → Bool
  | [], _ => true
  | _ :: _, [] => false
  | a :: as, b :: bs => a == b && beginsWith as bs

/-- Python's substring containment test, needle in hay. -/
def containsChars (needle : PyStr) : PyStr → Bool
  | [] => beginsWith needle []
  | a :: rest => beginsWith needle (a :: rest) || containsChars needle rest

/-- Model of a Python datetime: proleptic Gregorian ordinal day
(date.toordinal) and minutes since midnight. -/
structure DateTime where
  day : Int
  mins : Nat
deriving DecidableEq

/-- Python datetime comparison is lexicographic on (date, time). -/
instance : LT DateTime := ⟨fun a b => a.day < b.day ∨ (a.day = b.day ∧ a.mins < b.mins)⟩

instance : LE DateTime := ⟨fun a b => a.day < b.day ∨ (a.day = b.day ∧ a.mins ≤ b.mins)⟩

instance decDateTimeLt (a b : DateTime) : Decidable (a < b) :=
  inferInstanceAs (Decidable (a.day < b.day ∨ (a.day = b.day ∧ a.mins < b.mins)))

instance decDateTimeLe (a b : DateTime) : Decidable (a ≤ b) :=
  inferInstanceAs (Decidable (a.day < b.day ∨ (a.day = b.day ∧ a.mins ≤ b.mins)))

theorem DateTime.lt_def (a b : DateTime) :
    a < b ↔ a.day < b.day ∨ (a.day = b.day ∧ a.mins < b.mins) := Iff.rfl

theorem DateTime.le_def (a b : DateTime) :
    a ≤ b ↔ a.day < b.day ∨ (a.day = b.day ∧ a.mins ≤ b.mins) := Iff.rfl

/-- Hour component of a datetime (datetime.hour). -/
def DateTime.hour (t : DateTime) : Nat := t.mins / 60

/-- Gregorian leap-year rule, as used by Python's datetime module. -/
def isLeap (y : Int) : Bool := y % 4 == 0 && (y % 100 != 0 || y % 400 == 0)

/-- Number of days of month m in year y. -/
def daysInMonth (y m : Int) : Int :=
  if m = 2 then (if isLeap y then 29 else 28)
  else if m = 4 ∨ m = 6 ∨ m = 9 ∨ m = 11 then 30
  else 31

/-- Cumulative day counts before each month in a non-leap year. -/
def cumDaysList : List Int := [0, 31, 59, 90, 120, 151, 181, 212, 243, 273, 304, 334]

/-- Days in year y that precede month m. -/
def daysBeforeMonth (y m : Int) : Int :=
  cumDaysList.getD (m.toNat - 1) 0 + (if 2 < m ∧ isLeap y = true then 1 else 0)

/-- Proleptic Gregorian ordinal of year-month-day, matching Python's
date.toordinal (ordinal 1 is 0001-01-01). Python's datetime constructor
validates 1 <= year <= 9999, so y - 1 is non-negative and Int division
agrees with Python's floor division. -/
def toordinal (y m d : Int) : Int :=
  365 * (y - 1) + (y - 1) / 4 - (y - 1) / 100 + (y - 1) / 400 + daysBeforeMonth y m + d

/-- Model of datetime(year, month, day, hour, minute): validates all
components (raising ValueError on any out-of-range value) and returns
the ordinal-plus-minutes representation. -/
def mkDatetime (y m d h mi : Int) : Except PyError DateTime :=
  if 1 ≤ y ∧ y ≤ 9999 ∧ 1 ≤ m ∧ m ≤ 12 ∧ 1 ≤ d ∧ d ≤ daysInMonth y m
      ∧ 0 ≤ h ∧ h ≤ 23 ∧ 0 ≤ mi ∧ mi ≤ 59 then
    .ok ⟨toordinal y m d, h.toNat * 60 + mi.toNat⟩
  else
    .error .valueError

/-- Accumulates the value of a run of decimal digits, failing on any
non-digit character. -/
def parseDigitsAux (acc : Nat) : PyStr → Option Nat
  | [] => some acc
  | c :: rest =>
    if c.isDigit then parseDigitsAux (10 * acc + (c.toNat - 48)) rest else none

/-- Model of Python's int(s) on a decimal string with an optional minus
sign (the only shapes the provider's date and time fields can take):
ValueError on an empty string, a bare sign, or any non-digit. -/
def pyInt (s : PyStr) : Except PyError Int :=
  match s with
  | [] => .error .valueError
  | '-' :: rest =>
    match rest, parseDigitsAux 0 rest with
    | _ :: _, some n => .ok (-(n : Int))
    | _, _ => .error .valueError
  | _ =>
    match parseDigitsAux 0 s with
    | some n => .ok (n : Int)
    | none => .error .valueError

/-- Applies int() to each string in order, propagating the first failure,
like Python's map(int, parts) consumed by tuple unpacking. -/
def pyIntList : List PyStr → Except PyError (List Int)
  | [] => .ok []
  | s :: rest =>
    match pyInt s with
    | .error e => .error e
    | .ok n =>
      match pyIntList rest with
      | .error e => .error e
      | .ok ns => .ok (n :: ns)

/-- Model of the Python tuple unpacking (a, b, c) = map(int, s.split(sep)):
ValueError when the arity is not 3 or an element is not an integer. -/
def parse3Ints (s : PyStr) (sep : Char) : Except PyError (Int × Int × Int) :=
  match pyIntList (splitOnChar sep s) with
  | .ok [a, b, c] => .ok (a, b, c)
  | .ok _ => .error .valueError
  | .error e => .error e

/-- Model of the Python tuple unpacking (a, b) = map(int, s.split(sep)). -/
def parse2Ints (s : PyStr) (sep : Char) : Except PyError (Int × Int) :=
  match pyIntList (splitOnChar sep s) with
  | .ok [a, b] => .ok (a, b)
  | .ok _ => .error .valueError
  | .error e => .error e

/-- Canonical programme produced from one 23-field legacy record by
Programmes.iter of rt2xmltv.py. The field that Python stores back into
slot 7 is either False or the string Film; it is modelled as an Option.
An empty cast field, which Python leaves as the empty string (iterated as
no actors at write time), is modelled as the empty list. -/
structure LegacyProg where
  title : PyStr
  subTitle : PyStr
  episode : PyStr
  year : PyStr
  director : PyStr
  cast : List PyStr
  premiere : Bool
  film : Option PyStr
  isRepeat : Bool
  subtitles : Bool
  widescreen : Bool
  newSeries : Bool
  deafSigned : Bool
  blackAndWhite : Bool
  starRating : PyStr
  certificate : PyStr
  genre : PyStr
  desc : PyStr
  choice : Bool
  start : DateTime
  stop : DateTime
  filedate : DateTime
  durationMins : PyStr
deriving DecidableEq

/-- Lines 293 to 295 of rt2xmltv.py: split the record on the tilde and
fail unless exactly 23 fields (len(Fields)) result. -/
def parseFields (line : PyStr) : Except PyError (List PyStr) :=
  if (splitOnChar '~' line).length = 23 then .ok (splitOnChar '~' line)
  else .error .malformedRecord

/-- Lines 302 to 306 of rt2xmltv.py: a cast entry split on the asterisk is
kept as-is when it has a single part and rendered actor-space-paren-character
otherwise (Python indexes parts 1 and 0 of the split). -/
def renderActor (x : PyStr) : PyStr :=
  let actor := splitOnChar '*' x
  if actor.length = 1 then actor.getD 0 []
  else actor.getD 1 [] ++ " (".data ++ actor.getD 0 [] ++ ")".data

/-- Lines 297 to 335 of rt2xmltv.py after field-count validation and
date/time parsing: boolean coercion, cast splitting, star-rating suffix,
film/genre clearing, midnight rollover of stop, and the filedate
(start.replace with hour 0 and minute 0). -/
def legacyBuild (data : List PyStr) (start stop0 : DateTime) : LegacyProg :=
  let castStr := data.getD 5 []
  let cast :=
    if castStr = [] then []
    else (splitOnChar (if castStr.contains '|' then '|' else ',') castStr).map renderActor
  let sr := data.getD 14 []
  let filmFlag := data.getD 7 [] == "true".data
  let genre0 := data.getD 16 []
  let genre1 := if filmFlag && (lowerChars genre0 == "film".data) then [] else genre0
  let genre2 := if lowerChars genre1 == "no genre".data then [] else genre1
  let stop := if stop0 < start then ⟨stop0.day + 1, stop0.mins⟩ else stop0
  { title := data.getD 0 []
    subTitle := data.getD 1 []
    episode := data.getD 2 []
    year := data.getD 3 []
    director := data.getD 4 []
    cast := cast
    premiere := data.getD 6 [] == "true".data
    film := if filmFlag then some "Film".data else none
    isRepeat := data.getD 8 [] == "true".data
    subtitles := data.getD 9 [] == "true".data
    widescreen := data.getD 10 [] == "true".data
    newSeries := data.getD 11 [] == "true".data
    deafSigned := data.getD 12 [] == "true".data
    blackAndWhite := data.getD 13 [] == "true".data
    starRating := if sr = [] then sr else sr ++ "/5".data
    certificate := data.getD 15 []
    genre := genre2
    desc := data.getD 17 []
    choice := data.getD 18 [] == "true".data
    start := start
    stop := stop
    filedate := ⟨start.day, 0⟩
    durationMins := data.getD 22 [] }

/-- Lines 325 to 326 of rt2xmltv.py: construct the start and stop
datetimes on the shared record date, then normalize via legacyBuild. -/
def legacyFromTimes (data : List PyStr) (year month day sh sm th tm : Int) :
    Except PyError LegacyProg :=
  match mkDatetime year month day sh sm with
  | .error e => .error e
  | .ok start =>
    match mkDatetime year month day th tm with
    | .error e => .error e
    | .ok stop0 => .ok (legacyBuild data start stop0)

/-- Lines 321 to 323 of rt2xmltv.py: parse the date field as
day/month/year and the start and stop fields as hour:minute. -/
def legacyFromData (data : List PyStr) : Except PyError LegacyProg :=
  match parse3Ints (data.getD 19 []) '/' with
  | .error e => .error e
  | .ok (day, month, year) =>
    match parse2Ints (data.getD 20 []) ':' with
    | .error e => .error e
    | .ok (sh, sm) =>
      match parse2Ints (data.getD 21 []) ':' with
      | .error e => .error e
      | .ok (th, tm) => legacyFromTimes data year month day sh sm th tm

/-- Full model of one iteration of Programmes.iter of rt2xmltv.py
(lines 292 to 335): field-count validation, then parsing of the date,
start and stop fields, datetime construction, and normalization. -/
def legacyIter (line : PyStr) : Except PyError LegacyProg :=
  match parseFields line with
  | .error e => .error e
  | .ok data => legacyFromData data

/-- Lines 184 to 185 of rt2xmltv.py (identically lines 171 to 172 of
sd2xmltv.py): the broadcast day of a programme is the filedate passed by
the iterator, moved back one day (filedate -= timedelta(1)) when the
start hour is below the configured start_hour. -/
def broadcastDay (startHour : Nat) (start filedate : DateTime) : DateTime :=
  if start.hour < startHour then { filedate with day := filedate.day - 1 } else filedate

/-- Observable state of a Files writer (rt2xmltv.py lines 164 to 200):
the configured files.start_hour (defaulted to 6 by main), the
construction-time now (datetime.now truncated to midnight), the set of
broadcast days holding an open output file (the keys of self.files, in
creation order), and the log of programme elements written, each tagged
with the day of the file that received it. -/
structure FilesState where
  startHour : Nat
  now : DateTime
  files : List DateTime
  written : List (DateTime × LegacyProg)
deriving DecidableEq

/-- Model of Files.write of rt2xmltv.py (lines 183 to 238): shift the
filedate per broadcastDay, silently return when the day is in the past,
otherwise lazily open the output file for that day and append the
programme element to it. -/
def filesWrite (s : FilesState) (filedate : DateTime) (p : LegacyProg) : FilesState :=
  if broadcastDay s.startHour p.start filedate < s.now then s
  else
    { s with
      files :=
        if broadcastDay s.startHour p.start filedate ∈ s.files then s.files
        else s.files ++ [broadcastDay s.startHour p.start filedate]
      written := s.written ++ [(broadcastDay s.startHour p.start filedate, p)] }

/-- Lines 234 to 235 of rt2xmltv.py: the category elements emitted for a
programme, in order: the film marker then the genre, each only when
truthy (the write-element helper skips falsy values). -/
def legacyCategoryElems (p : LegacyProg) : List PyStr :=
  (match p.film with
   | some f => if f = [] then [] else [f]
   | none => []) ++
  (if p.genre = [] then [] else [p.genre])

/-- One cast or crew member of a Schedules Direct program object
(sd2xmltv.py lines 289 to 307). -/
structure CastMember where
  billingOrder : PyStr
  role : PyStr
  name : PyStr
  characterName : Option PyStr
deriving DecidableEq

/-- The sorted key lambda on line 291 of sd2xmltv.py: lexicographic
comparison of the tuple (billingOrder, role, name). -/
def castKeyLe (a b : CastMember) : Bool :=
  if a.billingOrder = b.billingOrder then
    if a.role = b.role then charsLe a.name b.name
    else charsLt a.role b.role
  else charsLt a.billingOrder b.billingOrder

/-- Inserts x before the first element that is not strictly below it,
keeping earlier-arriving equals in front. -/
def insertSorted (le : α → α → Bool) (x : α) : List α → List α
  | [] => [x]
  | y :: ys => if le x y then x :: y :: ys else y :: insertSorted le x ys

/-- Stable sort modelling Python's sorted(): equal-keyed elements keep
their original relative order. -/
def stableSort (le : α → α → Bool) : List α → List α
  | [] => []
  | x :: xs => insertSorted le x (stableSort le xs)

/-- Lines 292 to 298 of sd2xmltv.py: lower-case the role and map it
through the fixed table. The third list contains the literal string
contestent exactly as spelled in the source. -/
def mapRole (r : PyStr) : PyStr :=
  let role := lowerChars r
  if role ∈ ["voice".data] then "actor".data
  else if role ∈ ["host".data, "anchor".data] then "presenter".data
  else if role ∈ ["guest".data, "contestent".data] then "guest".data
  else role

/-- Line 300 of sd2xmltv.py: the roles kept in the credits element. -/
def recognizedRoles : List PyStr :=
  ["director".data, "actor".data, "writer".data, "adapter".data, "producer".data,
   "composer".data, "editor".data, "presenter".data, "commentator".data, "guest".data]

/-- Lines 289 to 307 of sd2xmltv.py: concatenate cast and crew, sort by
(billingOrder, role, name) with Python's stable sort, map each role,
drop members whose mapped role is not recognized, and append the
parenthesized character name when present. -/
def processCredits (cast crew : List CastMember) : List (PyStr × PyStr) :=
  (stableSort castKeyLe (cast ++ crew)).filterMap fun m =>
    let role := mapRole m.role
    if role ∈ recognizedRoles then
      some (role, m.name ++
        (match m.characterName with
         | some c => " (".data ++ c ++ ")".data
         | none => []))
    else none

/-- One value of a metadata dict of a Schedules Direct program object
(the mdv of sd2xmltv.py lines 202 to 217); absent keys are none. -/
structure MdValues where
  season : Option Int
  totalSeasons : Option Int
  episode : Option Int
  totalEpisodes : Option Int
deriving DecidableEq

/-- Python str() of the result of mdv.get: None prints as None. -/
def optRepr : Option Int → PyStr
  | some n => (toString n).data
  | none => "None".data

/-- Lines 203 to 217 of sd2xmltv.py for one metadata value dict: build
the season/episode component, update the new-series flag when episode
equals 1, and append the component when season is greater than 0.
The final comparison is Python's mdv.get of season compared against 0
with the greater-than operator, which raises TypeError when season is
absent (None is not orderable against int in Python 3). -/
def mdEntryStep (acc : Bool × List PyStr) (mdv : MdValues) :
    Except PyError (Bool × List PyStr) :=
  let st := "s".data ++ optRepr mdv.season
  let st := st ++
    (match mdv.totalSeasons with
     | some t => "/".data ++ (toString t).data
     | none => [])
  let newSeries := acc.1 || decide (mdv.episode = some 1)
  let st := st ++
    (match mdv.episode with
     | some e => ", e".data ++ (toString e).data ++
        (match mdv.totalEpisodes with
         | some t => "/".data ++ (toString t).data
         | none => [])
     | none => [])
  match mdv.season with
  | none => .error .typeError
  | some s => .ok (newSeries, if s > 0 then acc.2 ++ [st] else acc.2)

/-- Lines 200 to 217 of sd2xmltv.py: process every metadata value dict in
order (the two nested for loops flattened), threading the new-series
flag and the subtitle component list. -/
def processMetadata (mds : List MdValues) : Except PyError (Bool × List PyStr) :=
  mds.foldlM mdEntryStep (false, [])

/-- Truthiness-relevant Python values that the premiere field can hold:
absent (None), a boolean, or a string. -/
inductive PyVal where
  | vNone
  | vBool (b : Bool)
  | vStr (s : PyStr)
deriving DecidableEq

/-- Python truthiness of such a value, as tested by the write-element
helper before emitting an element. -/
def PyVal.truthy : PyVal → Bool
  | .vNone => false
  | .vBool b => b
  | .vStr s => s ≠ []

/-- The fields of a Schedules Direct program object consulted by the
premiere logic of Files.write (sd2xmltv.py lines 197 to 198 and 235
to 237); premiere holds the value of programme.get of premiere. -/
structure ApiProg where
  entityType : Option PyStr
  showType : Option PyStr
  originalAirDate : Option PyStr
  premiere : PyVal
  start : DateTime
deriving DecidableEq

/-- Lines 197 to 198 of sd2xmltv.py: a program is a film when its
entityType is Movie or its lower-cased showType contains film or movie
as a substring. -/
def apiIsFilm (p : ApiProg) : Bool :=
  let showTypeL := lowerChars (p.showType.getD [])
  p.entityType.getD [] == "Movie".data
    || containsChars "film".data showTypeL
    || containsChars "movie".data showTypeL

/-- Python's date constructor applied to the unpacked int list: TypeError
when the arity is not 3, ValueError when out of range; returns the
toordinal day number. -/
def pyDate (parts : List Int) : Except PyError Int :=
  match parts with
  | [y, m, d] =>
    if 1 ≤ y ∧ y ≤ 9999 ∧ 1 ≤ m ∧ m ≤ 12 ∧ 1 ≤ d ∧ d ≤ daysInMonth y m then
      .ok (toordinal y m d)
    else .error .valueError
  | _ => .error .typeError

/-- Line 236 of sd2xmltv.py: parse originalAirDate by splitting on the
hyphen, converting each part with int, and applying date to the parts. -/
def parseOAD (s : PyStr) : Except PyError Int :=
  match pyIntList (splitOnChar '-' s) with
  | .error e => .error e
  | .ok parts => pyDate parts

/-- Lines 235 to 237 of sd2xmltv.py combined with the truthiness check of
the write-element helper: whether a premiere element is emitted for the
program. The element is written only inside the film-and-originalAirDate
guard, only when the date difference is at most two days, and only when
the premiere value itself is truthy. -/
def premiereEmitted (p : ApiProg) : Except PyError Bool :=
  if apiIsFilm p && p.originalAirDate.isSome then
    match parseOAD (p.originalAirDate.getD []) with
    | .error e => .error e
    | .ok oad =>
      if (p.start.day - oad).natAbs ≤ 2 then .ok p.premiere.truthy
      else .ok false
  else .ok false

/-- Both datetimes built from the same record date share the same
ordinal day. -/
theorem mkDatetime_ok_day (y m d h mi : Int) (t : DateTime)
    (hk : mkDatetime y m d h mi = Except.ok t) : t.day = toordinal y m d := by
  unfold mkDatetime at hk
  split at hk
  · injection hk with h2
    subst h2
    rfl
  · exact Except.noConfusion hk

/-- Failures of int() are ValueError. -/
theorem pyInt_error_eq (s : PyStr) (e : PyError) (h : pyInt s = Except.error e) :
    e = PyError.valueError := by
  unfold pyInt at h
  repeat' split at h
  all_goals first
    | exact Except.noConfusion h
    | exact (Except.error.inj h).symm

/-- Failures of mapped int() over a list are ValueError. -/
theorem pyIntList_error_eq (l : List PyStr) (e : PyError)
    (h : pyIntList l = Except.error e) : e = PyError.valueError := by
  induction l with
  | nil =>
    exact Except.noConfusion h
  | cons a rest ih =>
    unfold pyIntList at h
    split at h
    · rename_i e2 heq
      injection h with h
      subst h
      exact pyInt_error_eq a e2 heq
    · rename_i n heq
      split at h
      · rename_i e2 heq2
        injection h with h
        subst h
        exact ih heq2
      · exact Except.noConfusion h

/-- Failures of the three-way int unpacking are ValueError. -/
theorem parse3Ints_error_eq (s : PyStr) (sep : Char) (e : PyError)
    (h : parse3Ints s sep = Except.error e) : e = PyError.valueError := by
  unfold parse3Ints at h
  split at h
  · exact Except.noConfusion h
  · exact (Except.error.inj h).symm
  · rename_i e2 heq
    injection h with h
    subst h
    exact pyIntList_error_eq _ e2 heq

/-- Failures of the two-way int unpacking are ValueError. -/
theorem parse2Ints_error_eq (s : PyStr) (sep : Char) (e : PyError)
    (h : parse2Ints s sep = Except.error e) : e = PyError.valueError := by
  unfold parse2Ints at h
  split at h
  · exact Except.noConfusion h
  · exact (Except.error.inj h).symm
  · rename_i e2 heq
    injection h with h
    subst h
    exact pyIntList_error_eq _ e2 heq

/-- Failures of the datetime constructor are ValueError. -/
theorem mkDatetime_error_eq (y m d h mi : Int) (e : PyError)
    (hk : mkDatetime y m d h mi = Except.error e) : e = PyError.valueError := by
  unfold mkDatetime at hk
  split at hk
  · exact Except.noConfusion hk
  · exact (Except.error.inj hk).symm

/-- All failures of datetime construction are ValueError. -/
theorem legacyFromTimes_error_eq (data : List PyStr) (year month day sh sm th tm : Int)
    (e : PyError) (h : legacyFromTimes data year month day sh sm th tm = Except.error e) :
    e = PyError.valueError := by
  unfold legacyFromTimes at h
  split at h
  · rename_i e2 heq
    injection h with h
    subst h
    exact mkDatetime_error_eq _ _ _ _ _ e2 heq
  · split at h
    · rename_i e2 heq
      injection h with h
      subst h
      exact mkDatetime_error_eq _ _ _ _ _ e2 heq
    · exact Except.noConfusion h

/-- Every failure of the post-validation stage is ValueError, never the
field-count error. -/
theorem legacyFromData_error_eq (data : List PyStr) (e : PyError)
    (h : legacyFromData data = Except.error e) : e = PyError.valueError := by
  unfold legacyFromData at h
  split at h
  · rename_i e2 heq
    injection h with h
    subst h
    exact parse3Ints_error_eq _ _ e2 heq
  · split at h
    · rename_i e2 heq
      injection h with h
      subst h
      exact parse2Ints_error_eq _ _ e2 heq
    · split at h
      · rename_i e2 heq
        injection h with h
        subst h
        exact parse2Ints_error_eq _ _ e2 heq
      · exact legacyFromTimes_error_eq _ _ _ _ _ _ _ _ e h

/-- Successful field-count validation returns the split fields. -/
theorem parseFields_ok_eq (line : PyStr) (data : List PyStr)
    (h : parseFields line = Except.ok data) : data = splitOnChar '~' line := by
  unfold parseFields at h
  split at h
  · exact (Except.ok.inj h).symm
  · exact Except.noConfusion h

/-- Field-count validation fails exactly on a split arity other than 23. -/
theorem parseFields_error_iff (line : PyStr) :
    parseFields line = Except.error PyError.malformedRecord ↔
      (splitOnChar '~' line).length ≠ 23 := by
  unfold parseFields
  split
  · rename_i hlen
    simp [hlen]
  · rename_i hlen
    simp [hlen]

/-- Inversion of a successful run of the legacy iterator: the record
passed validation, every numeric field parsed, both datetimes were
constructed on the shared record date, and the programme is the
normalization of the parsed pieces. -/
theorem legacyIter_ok (line : PyStr) (p : LegacyProg) (h : legacyIter line = Except.ok p) :
    ∃ data day month year sh sm th tm start stop0,
      parseFields line = Except.ok data ∧
      parse3Ints (data.getD 19 []) '/' = Except.ok (day, month, year) ∧
      parse2Ints (data.getD 20 []) ':' = Except.ok (sh, sm) ∧
      parse2Ints (data.getD 21 []) ':' = Except.ok (th, tm) ∧
      mkDatetime year month day sh sm = Except.ok start ∧
      mkDatetime year month day th tm = Except.ok stop0 ∧
      p = legacyBuild data start stop0 := by
  unfold legacyIter legacyFromData legacyFromTimes at h
  repeat' split at h
  all_goals try exact Except.noConfusion h
  rename_i x5 data hdata x4 day month year h3 x3 sh sm h2a x2 th tm h2b x1 start hk1 x0 stop0 hk2
  exact ⟨data, day, month, year, sh, sm, th, tm, start, stop0,
    hdata, h3, h2a, h2b, hk1, hk2, (Except.ok.inj h).symm⟩

/-- Start instant of the normalized programme. -/
theorem legacyBuild_start (data : List PyStr) (start stop0 : DateTime) :
    (legacyBuild data start stop0).start = start := rfl

/-- Stop instant of the normalized programme: midnight rollover applies
exactly when the raw stop datetime precedes the start datetime. -/
theorem legacyBuild_stop (data : List PyStr) (start stop0 : DateTime) :
    (legacyBuild data start stop0).stop =
      if stop0 < start then ⟨stop0.day + 1, stop0.mins⟩ else stop0 := rfl

/-- Filedate of the normalized programme: start truncated to midnight. -/
theorem legacyBuild_filedate (data : List PyStr) (start stop0 : DateTime) :
    (legacyBuild data start stop0).filedate = ⟨start.day, 0⟩ := rfl

/-- Record with equal start and stop times: 23 tilde-separated fields,
title T, date 2020-01-01 (ordinal 737425), both times 12:00. -/
def sameTimeLine : PyStr := "T~~~~~~~~~~~~~~~~~~~01/01/2020~12:00~12:00~".data

/-- The programme the legacy iterator produces for sameTimeLine. -/
def sameTimeProg : LegacyProg :=
  ⟨"T".data, [], [], [], [], [], false, none, false, false, false, false, false, false,
   [], [], [], [], false, ⟨737425, 720⟩, ⟨737425, 720⟩, ⟨737425, 0⟩, []⟩

/-- Record crossing midnight: start 23:50, stop 00:10 on 2020-01-01. -/
def overnightLine : PyStr := "T~~~~~~~~~~~~~~~~~~~01/01/2020~23:50~00:10~".data

/-- The programme the legacy iterator produces for overnightLine: stop is
00:10 on the following date (ordinal 737426 is 2020-01-02). -/
def overnightProg : LegacyProg :=
  ⟨"T".data, [], [], [], [], [], false, none, false, false, false, false, false, false,
   [], [], [], [], false, ⟨737425, 1430⟩, ⟨737426, 10⟩, ⟨737425, 0⟩, []⟩

/-- C1 counterexample: a valid 23-field legacy record whose start and
stop times are both 12:00 parses successfully yet yields a programme
with stop equal to start, refuting that stop is strictly after start
for every valid record. -/
theorem C1_counterexample :
    legacyIter sameTimeLine = Except.ok sameTimeProg ∧
    ¬ sameTimeProg.start < sameTimeProg.stop := by
  constructor
  · decide
  · decide

/-- C1 (amended): for every legacy record accepted by the iterator, the
programme satisfies stop at or after start; stop is strictly after start
whenever the stop minute-of-day differs from the start minute-of-day;
and when the parsed stop time-of-day is earlier than the start
time-of-day, one calendar day is added to stop. -/
theorem C1_amended (line : PyStr) (p : LegacyProg) (h : legacyIter line = Except.ok p) :
    p.start ≤ p.stop ∧
    (p.stop.mins ≠ p.start.mins → p.start < p.stop) ∧
    (p.stop.mins < p.start.mins → p.stop.day = p.start.day + 1) := by
  obtain ⟨data, day, month, year, sh, sm, th, tm, start, stop0, _, _, _, _, hk1, hk2, hp⟩ :=
    legacyIter_ok line p h
  subst hp
  have hday : start.day = stop0.day := by
    rw [mkDatetime_ok_day year month day sh sm start hk1,
      mkDatetime_ok_day year month day th tm stop0 hk2]
  rw [legacyBuild_start, legacyBuild_stop]
  by_cases hlt : stop0 < start
  · rw [if_pos hlt]
    rw [DateTime.lt_def] at hlt
    refine ⟨?_, fun _ => ?_, fun _ => ?_⟩
    · rw [DateTime.le_def]
      left
      show start.day < stop0.day + 1
      omega
    · rw [DateTime.lt_def]
      left
      show start.day < stop0.day + 1
      omega
    · show stop0.day + 1 = start.day + 1
      omega
  · rw [if_neg hlt]
    rw [DateTime.lt_def] at hlt
    push_neg at hlt
    have hm : start.mins ≤ stop0.mins := hlt.2 hday.symm
    refine ⟨?_, fun hne => ?_, fun hc => ?_⟩
    · rw [DateTime.le_def]
      right
      exact ⟨hday, hm⟩
    · rw [DateTime.lt_def]
      right
      refine ⟨hday, ?_⟩
      omega
    · omega

/-- C1 witness: the amended theorem applied to the overnight record with
start 23:50 and stop 00:10; the hypothesis is discharged by evaluation,
and the resulting programme has stop at 00:10 on the following date. -/
theorem C1_witness :
    legacyIter overnightLine = Except.ok overnightProg ∧
    (overnightProg.start ≤ overnightProg.stop ∧
      (overnightProg.stop.mins ≠ overnightProg.start.mins →
        overnightProg.start < overnightProg.stop) ∧
      (overnightProg.stop.mins < overnightProg.start.mins →
        overnightProg.stop.day = overnightProg.start.day + 1)) :=
  ⟨by decide, C1_amended overnightLine overnightProg (by decide)⟩

/-- C2: for every programme produced by the legacy iterator, the day
selecting the output file in Files.write is the start date moved back
exactly one ordinal day when the start hour is strictly below the
configured start hour, and the start date itself otherwise; when the day
is not in the past, the programme is written to the file of exactly that
day. -/
theorem C2_broadcast_day (line : PyStr) (p : LegacyProg) (s : FilesState)
    (h : legacyIter line = Except.ok p) :
    broadcastDay s.startHour p.start p.filedate =
      (if p.start.hour < s.startHour then ⟨p.start.day - 1, 0⟩ else ⟨p.start.day, 0⟩) ∧
    (¬ broadcastDay s.startHour p.start p.filedate < s.now →
      (filesWrite s p.filedate p).written =
        s.written ++ [(broadcastDay s.startHour p.start p.filedate, p)]) := by
  obtain ⟨data, day, month, year, sh, sm, th, tm, start, stop0, _, _, _, _, _, _, hp⟩ :=
    legacyIter_ok line p h
  subst hp
  constructor
  · rw [legacyBuild_filedate, legacyBuild_start]
    unfold broadcastDay
    split
    · rfl
    · rfl
  · intro hnot
    unfold filesWrite
    rw [if_neg hnot]

/-- Record starting at 05:59 on 2021-03-02 (ordinal 737851). -/
def early559Line : PyStr := "T~~~~~~~~~~~~~~~~~~~02/03/2021~05:59~07:00~".data

/-- The programme produced for early559Line. -/
def early559Prog : LegacyProg :=
  ⟨"T".data, [], [], [], [], [], false, none, false, false, false, false, false, false,
   [], [], [], [], false, ⟨737851, 359⟩, ⟨737851, 420⟩, ⟨737851, 0⟩, []⟩

/-- Record starting at 06:00 on 2021-03-02. -/
def six00Line : PyStr := "T~~~~~~~~~~~~~~~~~~~02/03/2021~06:00~07:00~".data

/-- The programme produced for six00Line. -/
def six00Prog : LegacyProg :=
  ⟨"T".data, [], [], [], [], [], false, none, false, false, false, false, false, false,
   [], [], [], [], false, ⟨737851, 360⟩, ⟨737851, 420⟩, ⟨737851, 0⟩, []⟩

/-- Writer state with the default start hour 6 and a now in the past of
both example programmes. -/
def demoState : FilesState := ⟨6, ⟨737800, 0⟩, [], []⟩

/-- C2 witness: the theorem applied to the 05:59 and 06:00 programmes;
with startHour 6, the former files under ordinal 737850 (2021-03-01, the
previous calendar date) and the latter under 737851 (its own date). -/
theorem C2_witness :
    legacyIter early559Line = Except.ok early559Prog ∧
    legacyIter six00Line = Except.ok six00Prog ∧
    broadcastDay demoState.startHour early559Prog.start early559Prog.filedate =
      (if early559Prog.start.hour < demoState.startHour then ⟨early559Prog.start.day - 1, 0⟩
       else ⟨early559Prog.start.day, 0⟩) ∧
    broadcastDay demoState.startHour six00Prog.start six00Prog.filedate =
      (if six00Prog.start.hour < demoState.startHour then ⟨six00Prog.start.day - 1, 0⟩
       else ⟨six00Prog.start.day, 0⟩) ∧
    broadcastDay 6 early559Prog.start early559Prog.filedate = ⟨737850, 0⟩ ∧
    broadcastDay 6 six00Prog.start six00Prog.filedate = ⟨737851, 0⟩ :=
  ⟨by decide, by decide,
   (C2_broadcast_day early559Line early559Prog demoState (by decide)).1,
   (C2_broadcast_day six00Line six00Prog demoState (by decide)).1,
   by decide, by decide⟩

/-- C3: writing a programme whose shifted broadcast day is strictly
before the construction-time now is a complete no-op: the writer state,
including the day-to-file mapping and the written log, is unchanged, and
no error is possible since the model is total. -/
theorem C3_past_day_noop (s : FilesState) (fd : DateTime) (p : LegacyProg)
    (h : broadcastDay s.startHour p.start fd < s.now) :
    filesWrite s fd p = s := by
  unfold filesWrite
  rw [if_pos h]

/-- Writer state whose construction-time now (ordinal 737900) is after
the example programmes. -/
def pastState : FilesState := ⟨6, ⟨737900, 0⟩, [], []⟩

/-- C3 witness: the theorem applied to a concrete past-dated programme;
the write leaves the state untouched. -/
theorem C3_witness :
    broadcastDay pastState.startHour early559Prog.start early559Prog.filedate < pastState.now ∧
    filesWrite pastState early559Prog.filedate early559Prog = pastState :=
  ⟨by decide, C3_past_day_noop pastState early559Prog.filedate early559Prog (by decide)⟩

/-- C4: the legacy parser fails with the field-count error exactly when
the tilde split does not produce 23 fields; a 23-field line passes
validation, and any later failure is a different error. -/
theorem C4_field_count (line : PyStr) :
    legacyIter line = Except.error PyError.malformedRecord ↔
      (splitOnChar '~' line).length ≠ 23 := by
  rw [← parseFields_error_iff]
  constructor
  · intro h
    unfold legacyIter at h
    cases hpf : parseFields line with
    | error e =>
      rw [hpf] at h
      have h2 : (Except.error e : Except PyError LegacyProg) =
          Except.error PyError.malformedRecord := h
      injection h2 with h2
      rw [h2]
    | ok data =>
      rw [hpf] at h
      have h2 : legacyFromData data = Except.error PyError.malformedRecord := h
      have h3 := legacyFromData_error_eq data _ h2
      exact absurd h3 (by decide)
  · intro hpf
    unfold legacyIter
    rw [hpf]

/-- C4 witness: a three-field line is rejected with the field-count
error, via the theorem. -/
theorem C4_witness :
    (splitOnChar '~' "a~b~c".data).length ≠ 23 ∧
    legacyIter "a~b~c".data = Except.error PyError.malformedRecord :=
  ⟨by decide, (C4_field_count "a~b~c".data).mpr (by decide)⟩

/-- Film marker of the normalized programme. -/
theorem legacyBuild_film (data : List PyStr) (start stop0 : DateTime) :
    (legacyBuild data start stop0).film =
      if data.getD 7 [] == "true".data then some "Film".data else none := rfl

/-- Genre of the normalized programme after both clearing steps. -/
theorem legacyBuild_genre (data : List PyStr) (start stop0 : DateTime) :
    (legacyBuild data start stop0).genre =
      if lowerChars (if (data.getD 7 [] == "true".data)
            && (lowerChars (data.getD 16 []) == "film".data)
          then [] else data.getD 16 []) == "no genre".data
      then []
      else (if (data.getD 7 [] == "true".data)
            && (lowerChars (data.getD 16 []) == "film".data)
        then [] else data.getD 16 []) := rfl

/-- Core of the film/genre disambiguation, at the level of the split
fields: a true film flag yields the Film category and, when the genre is
case-insensitively film, clears it so only the Film category remains;
a genre case-insensitively equal to no genre is always cleared, leaving
no genre category element. -/
theorem legacyBuild_film_genre (data : List PyStr) (start stop0 : DateTime) :
    (data.getD 7 [] = "true".data →
      (legacyBuild data start stop0).film = some "Film".data ∧
      "Film".data ∈ legacyCategoryElems (legacyBuild data start stop0) ∧
      (lowerChars (data.getD 16 []) = "film".data →
        (legacyBuild data start stop0).genre = [] ∧
        legacyCategoryElems (legacyBuild data start stop0) = ["Film".data])) ∧
    (lowerChars (data.getD 16 []) = "no genre".data →
      (legacyBuild data start stop0).genre = [] ∧
      legacyCategoryElems (legacyBuild data start stop0) =
        (if (legacyBuild data start stop0).film = some "Film".data
         then ["Film".data] else [])) := by
  constructor
  · intro h7
    have hb : (data.getD 7 [] == "true".data) = true := beq_iff_eq.mpr h7
    have hf : (legacyBuild data start stop0).film = some "Film".data := by
      rw [legacyBuild_film, hb]
      simp
    refine ⟨hf, ?_, ?_⟩
    · simp [legacyCategoryElems, hf]
    · intro h16
      have hbg : (lowerChars (data.getD 16 []) == "film".data) = true := beq_iff_eq.mpr h16
      have hgenre : (legacyBuild data start stop0).genre = [] := by
        rw [legacyBuild_genre, hb, hbg]
        simp [lowerChars, beq_iff_eq]
      exact ⟨hgenre, by simp [legacyCategoryElems, hf, hgenre]⟩
  · intro h16
    have hgenre : (legacyBuild data start stop0).genre = [] := by
      rw [legacyBuild_genre]
      cases hb : (data.getD 7 [] == "true".data) with
      | false =>
        simp
        intro hcon
        exact absurd (by simpa using h16) hcon
      | true =>
        cases hbf : (lowerChars (data.getD 16 []) == "film".data) with
        | false =>
          simp
          intro hcon
          exact absurd (by simpa using h16) hcon
        | true => simp [lowerChars, beq_iff_eq]
    refine ⟨hgenre, ?_⟩
    cases hb : (data.getD 7 [] == "true".data) with
    | false =>
      have hf : (legacyBuild data start stop0).film = none := by
        rw [legacyBuild_film, hb]
        simp
      simp [legacyCategoryElems, hf, hgenre]
    | true =>
      have hf : (legacyBuild data start stop0).film = some "Film".data := by
        rw [legacyBuild_film, hb]
        simp
      simp [legacyCategoryElems, hf, hgenre]

/-- C5: for every record accepted by the legacy iterator, a true film
flag yields the Film category element, and if in addition the genre is
case-insensitively film, the genre is cleared so the category elements
are exactly the single Film entry; independently, a genre
case-insensitively equal to no genre is cleared to empty, so no genre
category element is emitted at all. -/
theorem C5_film_genre (line : PyStr) (p : LegacyProg) (h : legacyIter line = Except.ok p) :
    ((splitOnChar '~' line).getD 7 [] = "true".data →
      p.film = some "Film".data ∧
      "Film".data ∈ legacyCategoryElems p ∧
      (lowerChars ((splitOnChar '~' line).getD 16 []) = "film".data →
        p.genre = [] ∧ legacyCategoryElems p = ["Film".data])) ∧
    (lowerChars ((splitOnChar '~' line).getD 16 []) = "no genre".data →
      p.genre = [] ∧
      legacyCategoryElems p =
        (if p.film = some "Film".data then ["Film".data] else [])) := by
  obtain ⟨data, day, month, year, sh, sm, th, tm, start, stop0, hpf, _, _, _, _, _, hp⟩ :=
    legacyIter_ok line p h
  have hdata : data = splitOnChar '~' line := parseFields_ok_eq line data hpf
  subst hp
  rw [← hdata]
  exact legacyBuild_film_genre data start stop0

/-- Record with the film flag true and genre Film, starting 06:00 on
2021-03-02. -/
def filmLine : PyStr := "T~~~~~~~true~~~~~~~~~Film~~~02/03/2021~06:00~07:00~".data

/-- The programme produced for filmLine: the film slot holds Film and
the genre is cleared. -/
def filmProg : LegacyProg :=
  ⟨"T".data, [], [], [], [], [], false, some "Film".data, false, false, false, false,
   false, false, [], [], [], [], false, ⟨737851, 360⟩, ⟨737851, 420⟩, ⟨737851, 0⟩, []⟩

/-- C5 witness: the theorem applied to the film record; its category
elements are exactly the single Film entry. -/
theorem C5_witness :
    legacyIter filmLine = Except.ok filmProg ∧
    (((splitOnChar '~' filmLine).getD 7 [] = "true".data →
      filmProg.film = some "Film".data ∧
      "Film".data ∈ legacyCategoryElems filmProg ∧
      (lowerChars ((splitOnChar '~' filmLine).getD 16 []) = "film".data →
        filmProg.genre = [] ∧ legacyCategoryElems filmProg = ["Film".data])) ∧
    (lowerChars ((splitOnChar '~' filmLine).getD 16 []) = "no genre".data →
      filmProg.genre = [] ∧
      legacyCategoryElems filmProg =
        (if filmProg.film = some "Film".data then ["Film".data] else []))) :=
  ⟨by decide, C5_film_genre filmLine filmProg (by decide)⟩

/-- Cast list of the normalized programme. -/
theorem legacyBuild_cast (data : List PyStr) (start stop0 : DateTime) :
    (legacyBuild data start stop0).cast =
      if data.getD 5 [] = [] then []
      else (splitOnChar (if (data.getD 5 []).contains '|' then '|' else ',')
        (data.getD 5 [])).map renderActor := rfl

/-- C9: for every record accepted by the legacy iterator with a
non-empty cast field, the cast is the field split on the pipe when one
is present and on the comma otherwise, each entry rendered by
renderActor; an entry without an asterisk is kept as the raw name, and
an entry holding one asterisk-separated character-actor pair is rendered
as the actor followed by the parenthesized character. -/
theorem C9_cast (line : PyStr) (p : LegacyProg) (h : legacyIter line = Except.ok p)
    (hne : (splitOnChar '~' line).getD 5 [] ≠ []) :
    p.cast = (splitOnChar
        (if ((splitOnChar '~' line).getD 5 []).contains '|' then '|' else ',')
        ((splitOnChar '~' line).getD 5 [])).map renderActor ∧
    (∀ e : PyStr, splitOnChar '*' e = [e] → renderActor e = e) ∧
    (∀ e c a : PyStr, splitOnChar '*' e = [c, a] →
      renderActor e = a ++ " (".data ++ c ++ ")".data) := by
  obtain ⟨data, day, month, year, sh, sm, th, tm, start, stop0, hpf, _, _, _, _, _, hp⟩ :=
    legacyIter_ok line p h
  have hdata : data = splitOnChar '~' line := parseFields_ok_eq line data hpf
  subst hp
  rw [← hdata] at hne ⊢
  refine ⟨?_, ?_, ?_⟩
  · rw [legacyBuild_cast, if_neg hne]
  · intro e hs
    unfold renderActor
    rw [hs]
    simp
  · intro e c a hs
    unfold renderActor
    rw [hs]
    simp

/-- Record whose cast field is Alice*Bob|Carol, starting 06:00 on
2021-03-02. -/
def castLine : PyStr :=
  "T~~~~~Alice*Bob|Carol~~~~~~~~~~~~~~02/03/2021~06:00~07:00~".data

/-- The programme produced for castLine: the pipe is the delimiter, the
starred entry renders as Bob (Alice), the plain entry stays Carol. -/
def castProg : LegacyProg :=
  ⟨"T".data, [], [], [], [], ["Bob (Alice)".data, "Carol".data], false, none, false,
   false, false, false, false, false, [], [], [], [], false,
   ⟨737851, 360⟩, ⟨737851, 420⟩, ⟨737851, 0⟩, []⟩

/-- C9 witness: the theorem applied to the cast record. -/
theorem C9_witness :
    legacyIter castLine = Except.ok castProg ∧
    (splitOnChar '~' castLine).getD 5 [] ≠ [] ∧
    (castProg.cast = (splitOnChar
        (if ((splitOnChar '~' castLine).getD 5 []).contains '|' then '|' else ',')
        ((splitOnChar '~' castLine).getD 5 [])).map renderActor ∧
    (∀ e : PyStr, splitOnChar '*' e = [e] → renderActor e = e) ∧
    (∀ e c a : PyStr, splitOnChar '*' e = [c, a] →
      renderActor e = a ++ " (".data ++ c ++ ")".data)) :=
  ⟨by decide, by decide, C9_cast castLine castProg (by decide) (by decide)⟩

/-- C6: the credits role table does not map the correctly spelled role
contestant to guest. The source's table (line 297 of sd2xmltv.py) holds
the misspelled literal contestent, so a cast member whose role is
Contestant lower-cases to contestant, misses every mapping, is not in
the recognized role list, and is dropped from the credits entirely,
while the misspelled role contestent is the one mapped to guest. -/
theorem C6_contestant_dropped :
    processCredits [⟨"01".data, "Contestant".data, "Alice Jones".data, none⟩] [] = [] ∧
    mapRole "Contestant".data = "contestant".data ∧
    "contestant".data ∉ recognizedRoles ∧
    mapRole "Contestent".data = "guest".data ∧
    processCredits [⟨"01".data, "Contestent".data, "Alice Jones".data, none⟩] [] =
      [("guest".data, "Alice Jones".data)] := by
  refine ⟨?_, ?_, ?_, ?_, ?_⟩ <;> decide

/-- C7: serializing the metadata blocks is not total. A metadata entry
carrying an episode but no season makes the guard compare None against
0, raising TypeError, while an entry with a season present completes and
contributes its component exactly when the season is positive. -/
theorem C7_metadata_type_error :
    processMetadata [⟨none, none, some 2, none⟩] = Except.error PyError.typeError ∧
    processMetadata [⟨some 3, some 5, some 2, some 10⟩] =
      Except.ok (false, ["s3/5, e2/10".data]) ∧
    processMetadata [⟨some 0, none, some 2, none⟩] = Except.ok (false, []) := by
  refine ⟨?_, ?_, ?_⟩ <;> decide


/-- C8: a premiere element is emitted only when the program is a film,
an originalAirDate is present, and the parsed air date lies within two
days of the start date. -/
theorem C8_premiere_conditions (p : ApiProg) (h : premiereEmitted p = Except.ok true) :
    apiIsFilm p = true ∧ p.originalAirDate.isSome = true ∧
    (parseOAD (p.originalAirDate.getD [])).map
      (fun oad => decide ((p.start.day - oad).natAbs ≤ 2)) = Except.ok true := by
  unfold premiereEmitted at h
  split at h
  · rename_i hcond
    rw [Bool.and_eq_true] at hcond
    split at h
    · exact Except.noConfusion h
    · rename_i oad hoad
      split at h
      · rename_i hle
        refine ⟨hcond.1, hcond.2, ?_⟩
        rw [hoad]
        simp [hle, Except.map]
      · exact Bool.noConfusion (Except.ok.inj h)
  · exact Bool.noConfusion (Except.ok.inj h)

/-- Film program with an original air date one day before its start
(start ordinal 737851 is 2021-03-02) and a true premiere flag. -/
def apiPremiereProg : ApiProg :=
  ⟨some "Movie".data, none, some "2021-03-01".data, .vBool true, ⟨737851, 120⟩⟩

/-- C8 witness: the theorem applied to a concrete premiere-emitting
program. -/
theorem C8_witness :
    premiereEmitted apiPremiereProg = Except.ok true ∧
    (apiIsFilm apiPremiereProg = true ∧ apiPremiereProg.originalAirDate.isSome = true ∧
     (parseOAD (apiPremiereProg.originalAirDate.getD [])).map
       (fun oad => decide ((apiPremiereProg.start.day - oad).natAbs ≤ 2)) =
         Except.ok true) :=
  ⟨by decide, C8_premiere_conditions apiPremiereProg (by decide)⟩

/-- C10: a premiere element is emitted exactly when the three film,
air-date-presence and two-day conditions hold AND the premiere value of
the source record is itself truthy; in particular a missing, empty or
false premiere value yields no premiere element even when the other
conditions hold. -/
theorem C10_premiere_truthy (p : ApiProg) :
    premiereEmitted p = Except.ok true ↔
      (apiIsFilm p = true ∧ p.originalAirDate.isSome = true ∧
       (parseOAD (p.originalAirDate.getD [])).map
         (fun oad => decide ((p.start.day - oad).natAbs ≤ 2)) = Except.ok true ∧
       p.premiere.truthy = true) := by
  unfold premiereEmitted
  split
  · rename_i hcond
    rw [Bool.and_eq_true] at hcond
    obtain ⟨h1, h2⟩ := hcond
    cases hoad : parseOAD (p.originalAirDate.getD []) with
    | error e => simp [h1, h2, Except.map]
    | ok oad =>
      by_cases hle : (p.start.day - oad).natAbs ≤ 2
      · simp [h1, h2, hle, Except.map]
      · simp [h1, h2, hle, Except.map]
  · rename_i hcond
    rw [Bool.and_eq_true] at hcond
    push_neg at hcond
    constructor
    · intro hfalse
      exact absurd (Except.ok.inj hfalse) (by simp)
    · intro hconj
      exact absurd hconj.2.1 (hcond hconj.1)

/-- Film program meeting every premiere condition but whose source
record has no premiere value at all. -/
def apiNoPremProg : ApiProg :=
  ⟨some "Movie".data, none, some "2021-03-01".data, .vNone, ⟨737851, 120⟩⟩

/-- C10 witness: the characterization applied to a concrete program with
a missing premiere value; no premiere element is emitted. -/
theorem C10_witness : premiereEmitted apiNoPremProg ≠ Except.ok true :=
  fun hc => absurd ((C10_premiere_truthy apiNoPremProg).mp hc).2.2.2 (by decide)
